import Mathlib

/-!
# GymMatchMate — verification of the match-scoring and mutual-connection subsystem

Shallow embedding of `src/server/storage.ts` (class `MemStorage`),
`src/server/database-storage.ts` (class `DatabaseStorage`) and the relevant
route handlers of `src/server/routes.ts`, together with theorems settling the
specification claims about the gym recommendation scorer, the user-match state
machine, the message channel and the saved-gym store.

Conventions of the embedding:
* JavaScript strings are Lean `String`s; `s.includes(t)` becomes `strIncludes s t`
  (contiguous-substring test) and `s.toLowerCase()` becomes `strToLower`.
* Nullable fields (Postgres nullable columns / possibly-`null` JS values) are
  `Option`s; JS truthiness of a nullable number is `Option Int` being
  `some n` with `n ≠ 0`, truthiness of a nullable array is `Option.isSome`
  (an empty JS array is truthy).
* JS `Map` objects keyed by id are association lists in insertion order;
  `Map.set` replaces in place when the key exists, else appends
  (`Map.values()` iterates in insertion order, which `find`/`filter` observe).
* Floating-point score arithmetic is embedded in `ℚ`; every quantity the
  claims touch (base 70, integer bonuses, ratios with small denominators,
  `Math.round`, `Math.min`) is exact in both `ℚ` and IEEE doubles.
* `Math.random()` in `DatabaseStorage.getMatchesForUser` is made explicit:
  the per-gym draw `Math.floor(Math.random() * 15)` becomes a parameter
  `rand : ℕ` (its possible values are `0 … 14`).
* `new Date()` timestamps become a `now : ℕ` parameter of each mutating
  operation.
-/

set_option autoImplicit false

namespace GymMatchMate

/-! ## JavaScript string primitives -/

/-- `t` occurs as a contiguous sublist of `s` (the character-list form of
JS `s.includes(t)`). -/
def charsInclude (t : List Char) : List Char → Bool
  | [] => t.isEmpty
  | c :: s => t.isPrefixOf (c :: s) || charsInclude t s

/-- JS `s.includes(t)`: `t` is a contiguous substring of `s`. -/
def strIncludes (s t : String) : Bool :=
  charsInclude t.toList s.toList

/-- JS `s.toLowerCase()` (the strings the program compares are ASCII). -/
def strToLower (s : String) : String :=
  ⟨s.toList.map Char.toLower⟩

/-- JS `s.split(sep)` on the underlying character list: splits at every
separator, keeping empty segments (so splitting the empty string yields one
empty segment, as in JS). -/
def splitOnChar (sep : Char) (l : List Char) : List (List Char) :=
  l.foldr (fun c acc =>
    match acc with
    | [] => [[c]]
    | w :: ws => if c == sep then [] :: w :: ws else (c :: w) :: ws) [[]]

/-! ## Data model (shared/schema.ts, restricted to the fields the core uses) -/

/-- A user profile, restricted to the fields the scorer and the match/message
subsystem read: `id`, `fitnessGoals`, `gymPreferences` (both nullable text
arrays in the schema). -/
structure UserRec where
  id : Nat
  fitnessGoals : Option (List String) := some []
  gymPreferences : Option (List String) := some []
deriving Repr, DecidableEq

/-- A gym, restricted to the fields the scorer reads: `id` and the nullable
`amenities` text array. -/
structure Gym where
  id : Nat
  amenities : Option (List String) := some []
deriving Repr, DecidableEq

/-- A `user_matches` row. -/
structure UserMatch where
  id : Nat
  senderId : Nat
  receiverId : Nat
  status : String
  matchScore : Option Int
  createdAt : Nat
  updatedAt : Nat
deriving Repr, DecidableEq

/-- A `messages` row. -/
structure Message where
  id : Nat
  senderId : Nat
  receiverId : Nat
  content : String
  read : Bool
  createdAt : Nat
deriving Repr, DecidableEq

/-- A `saved_gyms` row. -/
structure SavedGym where
  id : Nat
  userId : Nat
  gymId : Nat
  matchScore : Option Int
  savedAt : Nat
deriving Repr, DecidableEq

/-! ## MemStorage scorer (storage.ts, MemStorage.getMatchesForUser) -/

/-- The goal→amenity lookup table of `MemStorage.getMatchesForUser`, in source
order. -/
def goalToAmenity : List (String × List String) :=
  [("Build Muscle", ["Free Weights", "Weight Training", "Personal Training", "Strength Equipment"]),
   ("Weight Loss", ["Cardio Equipment", "Classes", "Swimming Pool", "Group Training"]),
   ("Improve Strength", ["Free Weights", "Weight Training", "CrossFit", "Functional Training"]),
   ("Cardio", ["Treadmills", "Ellipticals", "Rowing Machines", "Cardio Equipment"]),
   ("Flexibility", ["Yoga Classes", "Stretching Area", "Group Classes"]),
   ("Endurance", ["Cardio Equipment", "Swimming Pool", "Running Track"]),
   ("Agility", ["Functional Training", "CrossFit", "Group Classes"])]

/-- Resolve a goal's related amenities: concatenate the table rows whose key
matches the goal by case-insensitive substring containment in either
direction; fall back to the generic set when nothing matched. -/
def relatedAmenitiesFor (goal : String) : List String :=
  let goalLower := strToLower goal
  let related := goalToAmenity.foldl
    (fun acc p =>
      if strIncludes goalLower (strToLower p.1) || strIncludes (strToLower p.1) goalLower then
        acc ++ p.2
      else acc) []
  if related.isEmpty then ["Classes", "Personal Training", "Equipment"] else related

/-- Number of (related amenity, gym amenity) pairs that match for one goal
(case-insensitive substring containment in either direction); the source's
per-goal contribution to `amenityMatchCount`. -/
def goalAmenityHits (goal : String) (gymAmenities : List String) : Nat :=
  ((relatedAmenitiesFor goal).map (fun amenity =>
    gymAmenities.countP (fun gymAmenity =>
      strIncludes (strToLower gymAmenity) (strToLower amenity) ||
        strIncludes (strToLower amenity) (strToLower gymAmenity)))).sum

/-- The goals of a profile, with JS `null` read as the empty array. -/
def goalsOf (u : UserRec) : List String := u.fitnessGoals.getD []

/-- The gym preferences of a profile, with JS `null` read as the empty array. -/
def prefsOf (u : UserRec) : List String := u.gymPreferences.getD []

/-- The amenities of a gym, with JS `null` read as the empty array. -/
def amenitiesOf (g : Gym) : List String := g.amenities.getD []

/-- Guard of the fitness-goal block:
`user.fitnessGoals && gym.amenities && user.fitnessGoals.length > 0`
(an empty JS array is truthy, so only `null` arrays fail the first two
conjuncts). -/
def goalDimOn (u : UserRec) (g : Gym) : Bool :=
  u.fitnessGoals.isSome && g.amenities.isSome && !(goalsOf u).isEmpty

/-- Guard of the gym-preference block:
`user.gymPreferences && user.gymPreferences.length > 0 && gym.amenities`. -/
def prefDimOn (u : UserRec) (g : Gym) : Bool :=
  u.gymPreferences.isSome && !(prefsOf u).isEmpty && g.amenities.isSome

/-- `matchCount`: the number of goals for which at least one related amenity
matched a gym amenity (`foundMatch` per goal). -/
def matchCount (u : UserRec) (g : Gym) : Nat :=
  (goalsOf u).countP (fun goal => decide (0 < goalAmenityHits goal (amenitiesOf g)))

/-- `amenityMatchCount`: total individual amenity matches across all goals
(not deduplicated). -/
def amenityMatchCount (u : UserRec) (g : Gym) : Nat :=
  ((goalsOf u).map (fun goal => goalAmenityHits goal (amenitiesOf g))).sum

/-- `goalMatchPercentage = matchCount / user.fitnessGoals.length`. -/
def goalMatchRatio (u : UserRec) (g : Gym) : ℚ :=
  (matchCount u g : ℚ) / ((goalsOf u).length : ℚ)

/-- Per-preference match count against the gym's amenities: direct substring
containment in either direction, or some word of the amenity longer than
3 characters occurring inside the preference. -/
def prefHits (preference : String) (gymAmenities : List String) : Nat :=
  gymAmenities.countP (fun amenity =>
    let prefLower := strToLower preference
    let amenityLower := strToLower amenity
    strIncludes prefLower amenityLower || strIncludes amenityLower prefLower ||
      (splitOnChar ' ' amenityLower.toList).any
        (fun word => charsInclude word prefLower.toList && decide (3 < word.length)))

/-- `preferenceMatches`: total matches across all preferences. -/
def preferenceMatches (u : UserRec) (g : Gym) : Nat :=
  ((prefsOf u).map (fun p => prefHits p (amenitiesOf g))).sum

/-- `prefMatchPercentage = Math.min(1, preferenceMatches / preferences.length)`. -/
def prefMatchRatio (u : UserRec) (g : Gym) : ℚ :=
  min 1 ((preferenceMatches u g : ℚ) / ((prefsOf u).length : ℚ))

/-- `totalFactors`: incremented once on entry of each of the two dimension
blocks (the source increments at the top of the block, before any
threshold test). -/
def totalFactors (u : UserRec) (g : Gym) : Nat :=
  (if goalDimOn u g then 1 else 0) + (if prefDimOn u g then 1 else 0)

/-- `matchingFactors`: the goal dimension contributes its ratio only when the
ratio exceeds 0.5; the preference dimension always contributes its
(capped) ratio. -/
def matchingFactors (u : UserRec) (g : Gym) : ℚ :=
  (if goalDimOn u g ∧ (1 : ℚ)/2 < goalMatchRatio u g then goalMatchRatio u g else 0)
    + (if prefDimOn u g then prefMatchRatio u g else 0)

/-- `Math.min(15, amenityMatchCount * 3)`, added inside the goal block. -/
def amenityBonus (u : UserRec) (g : Gym) : ℚ :=
  if goalDimOn u g then min 15 ((amenityMatchCount u g : ℚ) * 3) else 0

/-- `Math.min(20, preferenceMatches * 5)`, added inside the preference block. -/
def preferenceBonus (u : UserRec) (g : Gym) : ℚ :=
  if prefDimOn u g then min 20 ((preferenceMatches u g : ℚ) * 5) else 0

/-- `if (totalFactors > 0) matchScore += (matchingFactors / totalFactors) * 20`. -/
def factorAdjustment (u : UserRec) (g : Gym) : ℚ :=
  if 0 < totalFactors u g then matchingFactors u g / (totalFactors u g : ℚ) * 20 else 0

/-- The scorer's accumulated `matchScore` before the final round-and-cap. -/
def memRawScore (u : UserRec) (g : Gym) : ℚ :=
  70 + amenityBonus u g + preferenceBonus u g + factorAdjustment u g

/-- JS `Math.round` on a non-negative value: floor of `x + 1/2`. -/
def jsRound (q : ℚ) : ℤ := ⌊q + 1/2⌋

/-- `MemStorage` per-gym match score: `Math.min(100, Math.round(matchScore))`. -/
def memMatchScore (u : UserRec) (g : Gym) : ℤ :=
  min 100 (jsRound (memRawScore u g))

/-! ## DatabaseStorage scorer (database-storage.ts, getMatchesForUser) -/

/-- The (smaller) goal→amenity table of `DatabaseStorage.getMatchesForUser`. -/
def dbGoalToAmenity : List (String × List String) :=
  [("Build Muscle", ["Free Weights", "Weight Training", "Personal Training"]),
   ("Weight Loss", ["Cardio Equipment", "Classes", "Swimming Pool"]),
   ("Improve Strength", ["Free Weights", "Weight Training", "CrossFit"])]

/-- Total boost of the DatabaseStorage scorer: +2 per related amenity the gym
contains exactly (JS `Array.includes`, exact string equality; `goalToAmenity[goal]`
is an exact property lookup). -/
def dbBoost (u : UserRec) (g : Gym) : Nat :=
  if u.fitnessGoals.isSome && g.amenities.isSome then
    ((goalsOf u).map (fun goal =>
      2 * ((dbGoalToAmenity.lookup goal).getD []).countP
        (fun amenity => (amenitiesOf g).contains amenity))).sum
  else 0

/-- `DatabaseStorage` per-gym match score with the random draw explicit:
`matchScore = Math.floor(Math.random() * 15) + 75`, then the amenity boost,
then `Math.min(matchScore, 100)`.  `rand` ranges over `0 … 14`. -/
def dbMatchScore (u : UserRec) (g : Gym) (rand : Nat) : ℤ :=
  min ((rand + 75 + dbBoost u g : Nat) : ℤ) 100

/-! ## MemStorage state

The `Map` fields of `MemStorage` in insertion order.  `Map.set` replaces in
place when the key is present and appends otherwise; each record carries its
own key (`id`, or the `(userId, gymId)` pair for saved gyms, matching the
`` `${userId}-${gymId}` `` string key of the source). -/

/-- The mutable state of a `MemStorage` instance (the fields the claims
touch). -/
structure MemState where
  userStore : List UserRec
  gymStore : List Gym
  savedGymStore : List SavedGym
  userMatchStore : List UserMatch
  messageStore : List Message
  savedGymIdCounter : Nat
  userMatchIdCounter : Nat
  messageIdCounter : Nat
deriving Repr, DecidableEq

/-- `Map.set` for the user-match store (keyed by `id`): replace in place or
append. -/
def setMatch : List UserMatch → UserMatch → List UserMatch
  | [], m => [m]
  | x :: xs, m => if x.id == m.id then m :: xs else x :: setMatch xs m

/-- `Map.set` for the message store (keyed by `id`). -/
def setMessage : List Message → Message → List Message
  | [], m => [m]
  | x :: xs, m => if x.id == m.id then m :: xs else x :: setMessage xs m

/-- `Map.set` for the saved-gym store (keyed by the `(userId, gymId)` pair,
the source's `` `${userId}-${gymId}` `` key). -/
def setSaved : List SavedGym → SavedGym → List SavedGym
  | [], s => [s]
  | x :: xs, s =>
    if x.userId == s.userId && x.gymId == s.gymId then s :: xs else x :: setSaved xs s

/-! ## MemStorage operations (storage.ts) -/

/-- `MemStorage.getUser`. -/
def getUser (st : MemState) (id : Nat) : Option UserRec :=
  st.userStore.find? (fun u => u.id == id)

/-- `MemStorage.getAllGyms`. -/
def getAllGyms (st : MemState) : List Gym :=
  st.gymStore

/-- `MemStorage.getSavedGym`. -/
def getSavedGym (st : MemState) (userId gymId : Nat) : Option SavedGym :=
  st.savedGymStore.find? (fun s => s.userId == userId && s.gymId == gymId)

/-- The insert payload of a save (insertSavedGymSchema: id and savedAt
omitted, matchScore nullable). -/
structure InsertSavedGym where
  userId : Nat
  gymId : Nat
  matchScore : Option Int := none
deriving Repr, DecidableEq

/-- JS truthiness of a nullable number: `null`/`undefined` and `0` are falsy. -/
def intTruthy : Option Int → Bool
  | none => false
  | some n => n != 0

/-- `MemStorage.saveGym`: if a record for the `(userId, gymId)` pair exists,
update its score only when the supplied score is truthy
(`if (savedGymData.matchScore)`), else create a fresh record. -/
def saveGym (st : MemState) (data : InsertSavedGym) (now : Nat) : SavedGym × MemState :=
  match getSavedGym st data.userId data.gymId with
  | some existing =>
    if intTruthy data.matchScore then
      let updated := { existing with matchScore := data.matchScore }
      (updated, { st with savedGymStore := setSaved st.savedGymStore updated })
    else
      (existing, st)
  | none =>
    let savedGym : SavedGym :=
      { id := st.savedGymIdCounter, userId := data.userId, gymId := data.gymId,
        matchScore := data.matchScore, savedAt := now }
    (savedGym,
     { st with savedGymStore := setSaved st.savedGymStore savedGym,
               savedGymIdCounter := st.savedGymIdCounter + 1 })

/-- `MemStorage.getUserMatch`. -/
def getUserMatch (st : MemState) (id : Nat) : Option UserMatch :=
  st.userMatchStore.find? (fun m => m.id == id)

/-- The direction-agnostic pair test of `getUserMatchByUsers`: `m` connects
`senderId` and `receiverId` with the two ids in either role. -/
def connects (m : UserMatch) (senderId receiverId : Nat) : Bool :=
  (m.senderId == senderId && m.receiverId == receiverId) ||
    (m.senderId == receiverId && m.receiverId == senderId)

/-- `MemStorage.getUserMatchByUsers`: first stored match connecting the pair,
in either direction. -/
def getUserMatchByUsers (st : MemState) (senderId receiverId : Nat) : Option UserMatch :=
  st.userMatchStore.find? (fun m => connects m senderId receiverId)

/-- `MemStorage.updateUserMatchStatus`; `none` models the thrown
`Error` when the id is absent. -/
def updateUserMatchStatus (st : MemState) (id : Nat) (status : String) (now : Nat) :
    Option (UserMatch × MemState) :=
  match getUserMatch st id with
  | none => none
  | some m =>
    let updatedMatch := { m with status := status, updatedAt := now }
    some (updatedMatch, { st with userMatchStore := setMatch st.userMatchStore updatedMatch })

/-- The insert payload of a match request (insertUserMatchSchema omits id,
status and the timestamps, so a parsed request always has `status := none`;
`MemStorage.createUserMatch` still reads `userMatchData.status`). -/
structure InsertUserMatch where
  senderId : Nat
  receiverId : Nat
  matchScore : Option Int := none
  status : Option String := none
deriving Repr, DecidableEq

/-- `userMatchData.status || "pending"` (the empty string is falsy). -/
def statusOrPending : Option String → String
  | none => "pending"
  | some s => if s == "" then "pending" else s

/-- `MemStorage.createUserMatch`: reuse an existing match for the pair — a
reciprocal call on a pending match accepts it, anything else is returned
unchanged — otherwise create a fresh pending match. -/
def createUserMatch (st : MemState) (data : InsertUserMatch) (now : Nat) :
    UserMatch × MemState :=
  match getUserMatchByUsers st data.senderId data.receiverId with
  | some existingMatch =>
    if existingMatch.status == "pending" &&
       existingMatch.senderId == data.receiverId &&
       existingMatch.receiverId == data.senderId then
      match updateUserMatchStatus st existingMatch.id "accepted" now with
      | some r => r
      | none => (existingMatch, st)   -- unreachable: the id was just found
    else
      (existingMatch, st)
  | none =>
    let userMatch : UserMatch :=
      { id := st.userMatchIdCounter, senderId := data.senderId,
        receiverId := data.receiverId, status := statusOrPending data.status,
        matchScore := data.matchScore, createdAt := now, updatedAt := now }
    (userMatch,
     { st with userMatchStore := setMatch st.userMatchStore userMatch,
               userMatchIdCounter := st.userMatchIdCounter + 1 })

/-- The insert payload of a message (insertMessageSchema omits id, read and
createdAt). -/
structure InsertMessage where
  senderId : Nat
  receiverId : Nat
  content : String
deriving Repr, DecidableEq

/-- `MemStorage.createMessage`: always persists with `read := false`. -/
def createMessage (st : MemState) (data : InsertMessage) (now : Nat) :
    Message × MemState :=
  let message : Message :=
    { id := st.messageIdCounter, senderId := data.senderId,
      receiverId := data.receiverId, content := data.content,
      read := false, createdAt := now }
  (message,
   { st with messageStore := setMessage st.messageStore message,
             messageIdCounter := st.messageIdCounter + 1 })

/-- `MemStorage.getUnreadMessageCount`: messages to `userId` with
`read = false`, across all senders. -/
def getUnreadMessageCount (st : MemState) (userId : Nat) : Nat :=
  (st.messageStore.filter (fun m => m.receiverId == userId && !m.read)).length

/-- `MemStorage.markMessagesAsRead`: bulk-set `read := true` on every unread
message from `senderId` to `receiverId` (each `Map.set` replaces in place,
so the store keeps its order — a `map`). -/
def markMessagesAsRead (st : MemState) (receiverId senderId : Nat) : MemState :=
  { st with messageStore := st.messageStore.map (fun m =>
      if m.senderId == senderId && m.receiverId == receiverId && !m.read then
        { m with read := true }
      else m) }

/-- Stable insertion (descending score) for the scorer's final
`sort((a, b) => b.matchScore - a.matchScore)`. -/
def insertByScoreDesc (x : Gym × ℤ) : List (Gym × ℤ) → List (Gym × ℤ)
  | [] => [x]
  | y :: ys => if y.2 < x.2 then x :: y :: ys else y :: insertByScoreDesc x ys

/-- Stable sort by descending score. -/
def sortByScoreDesc : List (Gym × ℤ) → List (Gym × ℤ)
  | [] => []
  | x :: xs => insertByScoreDesc x (sortByScoreDesc xs)

/-- `MemStorage.getMatchesForUser`: score every stored gym against the stored
user and sort by descending score ([] when the user is absent). -/
def memGetMatchesForUser (st : MemState) (userId : Nat) : List (Gym × ℤ) :=
  match getUser st userId with
  | none => []
  | some user =>
    sortByScoreDesc ((getAllGyms st).map (fun gym => (gym, memMatchScore user gym)))

/-- Stable insertion (ascending `createdAt`) for
`MemStorage.getMessages`' sort. -/
def insertByCreatedAsc (x : Message) : List Message → List Message
  | [] => [x]
  | y :: ys => if x.createdAt < y.createdAt then x :: y :: ys else y :: insertByCreatedAsc x ys

/-- Stable sort by ascending creation time. -/
def sortByCreatedAsc : List Message → List Message
  | [] => []
  | x :: xs => insertByCreatedAsc x (sortByCreatedAsc xs)

/-- `MemStorage.getMessages`: both directions of the pair, chronological. -/
def getMessages (st : MemState) (userId otherUserId : Nat) : List Message :=
  sortByCreatedAsc (st.messageStore.filter (fun m =>
    (m.senderId == userId && m.receiverId == otherUserId) ||
    (m.senderId == otherUserId && m.receiverId == userId)))

/-! ## Route handlers (routes.ts)

Each handler is a function from the authenticated actor's id and the request
data to a response and the resulting storage state; the `req.isAuthenticated()`
gate is the `actorId` being available.  HTTP error responses become an
`ApiErr`, and an error response always returns the state unchanged. -/

/-- The error responses of the modelled routes (status code and message). -/
inductive ApiErr where
  | badRequest : String → ApiErr     -- 400
  | forbidden : String → ApiErr      -- 403
  | notFound : String → ApiErr       -- 404
deriving Repr, DecidableEq

/-- `POST /api/user-matches` (a match request): the sender must be the actor
and the receiver must exist; then delegate to `createUserMatch`. -/
def requestMatch (st : MemState) (actorId : Nat) (data : InsertUserMatch) (now : Nat) :
    Except ApiErr UserMatch × MemState :=
  if data.senderId != actorId then
    (.error (.forbidden "You can only create matches for yourself"), st)
  else
    match getUser st data.receiverId with
    | none => (.error (.notFound "User not found"), st)
    | some _ =>
      let r := createUserMatch st data now
      (.ok r.1, r.2)

/-- `PUT /api/user-matches/:id` (respond to a match): the status must be
`accepted` or `rejected`, the match must exist, and only its receiver may
respond; then delegate to `updateUserMatchStatus`. -/
def respondToMatch (st : MemState) (actorId matchId : Nat) (status : String) (now : Nat) :
    Except ApiErr UserMatch × MemState :=
  if !(status == "accepted" || status == "rejected") then
    (.error (.badRequest "Valid status required (accepted or rejected)"), st)
  else
    match getUserMatch st matchId with
    | none => (.error (.notFound "Match not found"), st)
    | some m =>
      if m.receiverId != actorId then
        (.error (.forbidden "You can only respond to matches sent to you"), st)
      else
        match updateUserMatchStatus st matchId status now with
        | some r => (.ok r.1, r.2)
        | none => (.error (.notFound "Match not found"), st)   -- unreachable

/-- `POST /api/messages` (send a message): the sender must be the actor, the
receiver must exist, and the pair must have an accepted match (looked up
direction-agnostically); then delegate to `createMessage`. -/
def sendMessage (st : MemState) (actorId : Nat) (data : InsertMessage) (now : Nat) :
    Except ApiErr Message × MemState :=
  if data.senderId != actorId then
    (.error (.forbidden "You can only send messages as yourself"), st)
  else
    match getUser st data.receiverId with
    | none => (.error (.notFound "Recipient not found"), st)
    | some _ =>
      match getUserMatchByUsers st data.senderId data.receiverId with
      | none => (.error (.forbidden "You can only message users you've matched with"), st)
      | some m =>
        if m.status != "accepted" then
          (.error (.forbidden "You can only message users you've matched with"), st)
        else
          let r := createMessage st data now
          (.ok r.1, r.2)

/-- `GET /api/messages/:userId` (fetch a conversation): the other user must
exist and the pair must have an accepted match; returns the conversation
and, as a side effect, bulk-marks the messages from the other user to the
actor as read. -/
def getConversation (st : MemState) (actorId otherUserId : Nat) :
    Except ApiErr (List Message) × MemState :=
  match getUser st otherUserId with
  | none => (.error (.notFound "User not found"), st)
  | some _ =>
    match getUserMatchByUsers st actorId otherUserId with
    | none => (.error (.forbidden "You can only message users you've matched with"), st)
    | some m =>
      if m.status != "accepted" then
        (.error (.forbidden "You can only message users you've matched with"), st)
      else
        (.ok (getMessages st actorId otherUserId), markMessagesAsRead st actorId otherUserId)

/-- `DatabaseStorage.getMatchesForUser` with the random draws explicit: the
i-th gym's `Math.floor(Math.random() * 15)` draw is the i-th entry of
`rands` (callers supply one draw per stored gym). -/
def dbGetMatchesForUser (st : MemState) (userId : Nat) (rands : List Nat) :
    List (Gym × ℤ) :=
  match getUser st userId with
  | none => []
  | some user =>
    sortByScoreDesc (((getAllGyms st).zip rands).map (fun p => (p.1, dbMatchScore user p.1 p.2)))

/-! ## Concrete sample data for witnesses and counterexamples -/

/-- A state with one user (id 1) and one gym (id 1) and nothing else. -/
def oneGymState : MemState :=
  { userStore := [{ id := 1 }], gymStore := [{ id := 1 }], savedGymStore := [],
    userMatchStore := [], messageStore := [],
    savedGymIdCounter := 1, userMatchIdCounter := 1, messageIdCounter := 1 }

/-- `oneGymState` with an unrelated message stored: a different stored state
whose user record and gym list are identical. -/
def chattyState : MemState :=
  { oneGymState with
    messageStore := [{ id := 1, senderId := 1, receiverId := 1, content := "note",
                       read := true, createdAt := 0 }],
    messageIdCounter := 2 }

/-- A user whose profile has empty goal and preference lists. -/
def emptyProfileUser : UserRec := { id := 7 }

/-- A gym with an empty amenity list. -/
def plainGym : Gym := { id := 3 }

/-- A profile whose single goal ("Cardio") matches nothing in `yogaGym` but
whose single preference ("Yoga Classes") fully matches. -/
def failGoalUser : UserRec :=
  { id := 1, fitnessGoals := some ["Cardio"], gymPreferences := some ["Yoga Classes"] }

/-- A gym whose only amenity is "Yoga Classes". -/
def yogaGym : Gym := { id := 1, amenities := some ["Yoga Classes"] }

/-- A state with three users (ids 1, 2, 3) and no matches. -/
def twoUserState : MemState :=
  { userStore := [{ id := 1 }, { id := 2 }, { id := 3 }], gymStore := [], savedGymStore := [],
    userMatchStore := [], messageStore := [],
    savedGymIdCounter := 1, userMatchIdCounter := 1, messageIdCounter := 1 }

/-- A pending match request from user 1 to user 2. -/
def pendingMatchRec : UserMatch :=
  { id := 1, senderId := 1, receiverId := 2, status := "pending", matchScore := none,
    createdAt := 0, updatedAt := 0 }

/-- An accepted match between user 1 and user 2. -/
def acceptedMatchRec : UserMatch :=
  { id := 1, senderId := 1, receiverId := 2, status := "accepted", matchScore := none,
    createdAt := 0, updatedAt := 0 }

/-- `twoUserState` with the pending 1→2 request stored. -/
def pendingMatchState : MemState :=
  { twoUserState with userMatchStore := [pendingMatchRec], userMatchIdCounter := 2 }

/-- `twoUserState` with the accepted 1–2 match stored. -/
def acceptedMatchState : MemState :=
  { twoUserState with userMatchStore := [acceptedMatchRec], userMatchIdCounter := 2 }

/-- User 1's saved record of gym 1, snapshotted score 80. -/
def savedRec : SavedGym :=
  { id := 1, userId := 1, gymId := 1, matchScore := some 80, savedAt := 0 }

/-- `oneGymState` with `savedRec` already stored. -/
def savedGymOnceState : MemState :=
  { oneGymState with savedGymStore := [savedRec], savedGymIdCounter := 2 }


/-! ## Scorer bounds -/

theorem amenityBonus_nonneg (u : UserRec) (g : Gym) : 0 ≤ amenityBonus u g := by
  unfold amenityBonus
  split
  · exact le_min (by norm_num) (by positivity)
  · exact le_refl 0

theorem preferenceBonus_nonneg (u : UserRec) (g : Gym) : 0 ≤ preferenceBonus u g := by
  unfold preferenceBonus
  split
  · exact le_min (by norm_num) (by positivity)
  · exact le_refl 0

theorem goalMatchRatio_nonneg (u : UserRec) (g : Gym) : 0 ≤ goalMatchRatio u g := by
  unfold goalMatchRatio
  positivity

theorem prefMatchRatio_nonneg (u : UserRec) (g : Gym) : 0 ≤ prefMatchRatio u g := by
  unfold prefMatchRatio
  exact le_min zero_le_one (by positivity)

theorem matchingFactors_nonneg (u : UserRec) (g : Gym) : 0 ≤ matchingFactors u g := by
  unfold matchingFactors
  have h1 := goalMatchRatio_nonneg u g
  have h2 := prefMatchRatio_nonneg u g
  split <;> split <;> linarith

theorem factorAdjustment_nonneg (u : UserRec) (g : Gym) : 0 ≤ factorAdjustment u g := by
  unfold factorAdjustment
  split
  · have h1 := matchingFactors_nonneg u g
    have h2 : (0 : ℚ) ≤ (totalFactors u g : ℚ) := Nat.cast_nonneg _
    positivity
  · exact le_refl 0

theorem memRawScore_ge_70 (u : UserRec) (g : Gym) : 70 ≤ memRawScore u g := by
  unfold memRawScore
  have h1 := amenityBonus_nonneg u g
  have h2 := preferenceBonus_nonneg u g
  have h3 := factorAdjustment_nonneg u g
  linarith

theorem jsRound_ge (q : ℚ) (z : ℤ) (h : (z : ℚ) ≤ q) : z ≤ jsRound q := by
  unfold jsRound
  exact Int.le_floor.mpr (by linarith)

theorem memMatchScore_lower_bound (u : UserRec) (g : Gym) : 70 ≤ memMatchScore u g := by
  unfold memMatchScore
  refine le_min (by norm_num) (jsRound_ge _ _ ?_)
  have := memRawScore_ge_70 u g
  push_cast
  linarith

theorem dbMatchScore_lower_bound (u : UserRec) (g : Gym) (rand : Nat) :
    75 ≤ dbMatchScore u g rand := by
  unfold dbMatchScore
  refine le_min ?_ (by norm_num)
  push_cast
  have h1 : (0 : ℤ) ≤ (rand : ℤ) := Int.natCast_nonneg _
  have h2 : (0 : ℤ) ≤ (dbBoost u g : ℤ) := Int.natCast_nonneg _
  linarith

/-- C10: every score of either scorer is at least 70: the base is at least 70
(`MemStorage` starts at 70, `DatabaseStorage` at 75 plus the draw), every
adjustment is a non-negative addition, and only an upper cap of 100 is
applied. -/
theorem score_at_least_70 (u : UserRec) (g : Gym) (rand : Nat) :
    70 ≤ memMatchScore u g ∧ 70 ≤ dbMatchScore u g rand :=
  ⟨memMatchScore_lower_bound u g, le_trans (by norm_num) (dbMatchScore_lower_bound u g rand)⟩

/-- C8: every score of either scorer is an integer between 0 and 100: the
accumulated score is non-negative (it starts at 70 or higher and only grows)
and the final `Math.min(…, 100)` caps it at 100. -/
theorem score_in_range (u : UserRec) (g : Gym) (rand : Nat) :
    (0 ≤ memMatchScore u g ∧ memMatchScore u g ≤ 100) ∧
    (0 ≤ dbMatchScore u g rand ∧ dbMatchScore u g rand ≤ 100) := by
  have h1 := memMatchScore_lower_bound u g
  have h2 := dbMatchScore_lower_bound u g rand
  refine ⟨⟨by linarith, ?_⟩, ⟨by linarith, ?_⟩⟩
  · exact min_le_left _ _
  · exact min_le_right _ _

/-! ## Determinism (claim C1) -/



/-- C1 (counterexample): `DatabaseStorage.getMatchesForUser` is *not*
deterministic on identical inputs and identical stored state: with the same
state, same user and same gym list, two invocations whose per-gym
`Math.floor(Math.random() * 15)` draws differ (0 versus 1) return different
scores, refuting "identical scores for every gym, with no dependence on
randomness". -/
theorem dbGetMatchesForUser_random_draw_dependent :
    dbGetMatchesForUser oneGymState 1 [0] ≠ dbGetMatchesForUser oneGymState 1 [1] := by
  decide

/-- C1 (amended): the `MemStorage` scorer is deterministic: the result of
`getMatchesForUser` depends only on the stored user record and the stored
gym list, so two invocations on identical inputs and identical stored
user/gym state return identical scores for every gym — while the
`DatabaseStorage` implementation additionally depends on a per-gym random
draw (see the counterexample). -/
theorem memGetMatchesForUser_deterministic (st st' : MemState) (userId : Nat)
    (hu : getUser st userId = getUser st' userId)
    (hg : getAllGyms st = getAllGyms st') :
    memGetMatchesForUser st userId = memGetMatchesForUser st' userId := by
  unfold memGetMatchesForUser
  rw [hu, hg]

theorem memGetMatchesForUser_deterministic_witness :
    getUser oneGymState 1 = getUser chattyState 1 ∧
    getAllGyms oneGymState = getAllGyms chattyState ∧
    oneGymState ≠ chattyState ∧
    memGetMatchesForUser oneGymState 1 = memGetMatchesForUser chattyState 1 :=
  ⟨by decide, by decide, by decide,
   memGetMatchesForUser_deterministic oneGymState chattyState 1 (by decide) (by decide)⟩

/-! ## Empty-profile score (claim C2) -/



/-- C2 (counterexample): for a profile with empty fitness-goals and empty
gym-preferences lists, the live scorer (`DatabaseStorage.getMatchesForUser`,
the implementation `storage` instantiates) does not return 70: with random
draw 0 it returns 75. -/
theorem dbMatchScore_empty_profile_ne_70 :
    dbMatchScore emptyProfileUser plainGym 0 = 75 ∧
    dbMatchScore emptyProfileUser plainGym 0 ≠ 70 := by
  constructor <;> decide

/-- C2 (amended): for every profile with empty goals and empty preferences
and every gym, the `MemStorage` scorer returns exactly 70 (base score, no
bonuses, no factor adjustment), while the `DatabaseStorage` scorer returns
`75 + rand` for its random draw `rand ∈ [0, 15)` — hence never 70. -/
theorem empty_profile_scores (u : UserRec) (g : Gym) (rand : Nat)
    (hg : u.fitnessGoals = some []) (hp : u.gymPreferences = some [])
    (hr : rand ≤ 14) :
    memMatchScore u g = 70 ∧ dbMatchScore u g rand = 75 + (rand : ℤ) ∧
      dbMatchScore u g rand ≠ 70 := by
  have hgoal : goalDimOn u g = false := by simp [goalDimOn, goalsOf, hg]
  have hpref : prefDimOn u g = false := by simp [prefDimOn, prefsOf, hp]
  have htf : totalFactors u g = 0 := by simp [totalFactors, hgoal, hpref]
  have hraw : memRawScore u g = 70 := by
    simp [memRawScore, amenityBonus, preferenceBonus, factorAdjustment, hgoal, hpref, htf]
  have hboost : ((rand + 75 + dbBoost u g : Nat) : ℤ) = (rand : ℤ) + 75 := by
    have h0 : dbBoost u g = 0 := by simp [dbBoost, goalsOf, hg]
    rw [h0]
    push_cast
    ring
  refine ⟨?_, ?_, ?_⟩
  · rw [memMatchScore, hraw]
    norm_num [jsRound, min_def]
  · rw [dbMatchScore, hboost, min_eq_left (by omega)]
    ring
  · rw [dbMatchScore, hboost, min_eq_left (by omega)]
    omega

theorem empty_profile_scores_witness :
    emptyProfileUser.fitnessGoals = some [] ∧ emptyProfileUser.gymPreferences = some [] ∧
    3 ≤ 14 ∧
    (memMatchScore emptyProfileUser plainGym = 70 ∧
     dbMatchScore emptyProfileUser plainGym 3 = 75 + (3 : ℤ) ∧
     dbMatchScore emptyProfileUser plainGym 3 ≠ 70) :=
  ⟨rfl, rfl, by decide,
   empty_profile_scores emptyProfileUser plainGym 3 rfl rfl (by decide)⟩

/-! ## Goal dimension and `totalFactors` (claim C3) -/



/-- C3 (counterexample): for `failGoalUser` against `yogaGym` the goal ratio
is 0 ≤ 0.5 and the single preference fully matches, yet the score is
70 + 5 (preference bonus) + (0 + 1)/2 · 20 = 85, not the
70 + 5 + 20 = 95 the claim predicts when "the final adjustment is computed
as if the goal dimension were absent": `totalFactors` was already
incremented on entering the goal block. -/
theorem goal_threshold_factor_counterexample :
    memMatchScore failGoalUser yogaGym = 85 ∧ memMatchScore failGoalUser yogaGym ≠ 95 := by
  have hm : matchCount failGoalUser yogaGym = 0 := by decide
  have ha : amenityMatchCount failGoalUser yogaGym = 0 := by decide
  have hp : preferenceMatches failGoalUser yogaGym = 1 := by decide
  have hg : goalDimOn failGoalUser yogaGym = true := by decide
  have hd : prefDimOn failGoalUser yogaGym = true := by decide
  have hgl : (goalsOf failGoalUser).length = 1 := by decide
  have hpl : (prefsOf failGoalUser).length = 1 := by decide
  have hratio : goalMatchRatio failGoalUser yogaGym = 0 := by
    rw [goalMatchRatio, hm, hgl]
    norm_num
  have hpratio : prefMatchRatio failGoalUser yogaGym = 1 := by
    rw [prefMatchRatio, hp, hpl]
    norm_num
  have hraw : memRawScore failGoalUser yogaGym = 85 := by
    rw [memRawScore, amenityBonus, preferenceBonus, factorAdjustment, matchingFactors,
      totalFactors, hratio, hpratio, ha, hp, hg, hd]
    norm_num
  constructor
  · rw [memMatchScore, hraw]
    norm_num [jsRound, min_def]
  · rw [memMatchScore, hraw]
    norm_num [jsRound, min_def]

/-- C3 (amended): `totalFactors` is incremented whenever the goal dimension is
*evaluated* (profile has ≥ 1 goal and the gym's amenity array is present),
regardless of the threshold; only the `matchingFactors` contribution is
gated by `goalMatchRatio > 0.5`.  So with both dimensions evaluated and the
goal ratio at most 0.5, `totalFactors = 2` and the factor adjustment is
`(prefMatchRatio / 2) · 20` — e.g. 10 points, not 20, when the preferences
fully match. -/
theorem goal_dimension_counted_below_threshold (u : UserRec) (g : Gym)
    (hg : goalDimOn u g = true) (hd : prefDimOn u g = true)
    (hr : goalMatchRatio u g ≤ 1/2) :
    totalFactors u g = 2 ∧
    matchingFactors u g = prefMatchRatio u g ∧
    memRawScore u g =
      70 + amenityBonus u g + preferenceBonus u g + prefMatchRatio u g / 2 * 20 := by
  have htf : totalFactors u g = 2 := by simp [totalFactors, hg, hd]
  have hmf : matchingFactors u g = prefMatchRatio u g := by
    rw [matchingFactors, if_neg, if_pos hd]
    · ring
    · rintro ⟨-, hlt⟩
      linarith
  refine ⟨htf, hmf, ?_⟩
  rw [memRawScore, factorAdjustment, htf, hmf, if_pos (by norm_num)]
  norm_num

theorem goal_dimension_counted_below_threshold_witness :
    goalDimOn failGoalUser yogaGym = true ∧ prefDimOn failGoalUser yogaGym = true ∧
    goalMatchRatio failGoalUser yogaGym ≤ 1/2 ∧
    (totalFactors failGoalUser yogaGym = 2 ∧
     matchingFactors failGoalUser yogaGym = prefMatchRatio failGoalUser yogaGym ∧
     memRawScore failGoalUser yogaGym =
       70 + amenityBonus failGoalUser yogaGym + preferenceBonus failGoalUser yogaGym +
         prefMatchRatio failGoalUser yogaGym / 2 * 20) := by
  have hr : goalMatchRatio failGoalUser yogaGym ≤ 1/2 := by
    rw [goalMatchRatio, show matchCount failGoalUser yogaGym = 0 from by decide,
      show (goalsOf failGoalUser).length = 1 from by decide]
    norm_num
  exact ⟨by decide, by decide, hr,
    goal_dimension_counted_below_threshold failGoalUser yogaGym (by decide) (by decide) hr⟩

/-! ## Store helper lemmas (JS `Map` behaviour over the embedded stores) -/

theorem findAppendNone {α : Type} (p : α → Bool) (l1 l2 : List α) (h : l1.find? p = none) :
    (l1 ++ l2).find? p = l2.find? p := by
  induction l1 with
  | nil => rfl
  | cons x xs ih =>
    cases hx : p x with
    | true => rw [List.find?_cons_of_pos _ hx] at h; cases h
    | false =>
      have hx' : ¬ p x = true := by simp [hx]
      rw [List.find?_cons_of_neg _ hx'] at h
      rw [List.cons_append, List.find?_cons_of_neg _ hx']
      exact ih h

theorem findCongrPred {α : Type} (p q : α → Bool) (h : ∀ a, p a = q a) (l : List α) :
    l.find? p = l.find? q := by
  induction l with
  | nil => rfl
  | cons x xs ih => simp only [List.find?_cons, h, ih]

theorem connects_symm (m : UserMatch) (a b : Nat) : connects m a b = connects m b a := by
  unfold connects
  exact Bool.or_comm _ _

theorem getUserMatchByUsers_symm (st : MemState) (a b : Nat) :
    getUserMatchByUsers st a b = getUserMatchByUsers st b a := by
  unfold getUserMatchByUsers
  exact findCongrPred _ _ (fun m => connects_symm m a b) _

theorem setMatch_append (l : List UserMatch) (m : UserMatch) (h : ∀ x ∈ l, x.id ≠ m.id) :
    setMatch l m = l ++ [m] := by
  induction l with
  | nil => rfl
  | cons x xs ih =>
    have hx : (x.id == m.id) = false :=
      beq_eq_false_iff_ne.mpr (h x (List.mem_cons_self x xs))
    simp only [setMatch, hx, Bool.false_eq_true, if_false, List.cons_append, List.cons.injEq,
      true_and]
    exact ih (fun y hy => h y (List.mem_cons_of_mem x hy))

theorem setMatch_update (l : List UserMatch) (m1 m2 : UserMatch) (hid : m2.id = m1.id)
    (h : ∀ x ∈ l, x.id ≠ m1.id) : setMatch (l ++ [m1]) m2 = l ++ [m2] := by
  induction l with
  | nil =>
    simp only [List.nil_append, setMatch, hid, beq_self_eq_true, if_true]
  | cons x xs ih =>
    have hx : (x.id == m2.id) = false := by
      rw [hid]
      exact beq_eq_false_iff_ne.mpr (h x (List.mem_cons_self x xs))
    simp only [List.cons_append, setMatch, hx, Bool.false_eq_true, if_false, List.cons.injEq,
      true_and]
    exact ih (fun y hy => h y (List.mem_cons_of_mem x hy))

theorem setMessage_append (l : List Message) (m : Message) (h : ∀ x ∈ l, x.id ≠ m.id) :
    setMessage l m = l ++ [m] := by
  induction l with
  | nil => rfl
  | cons x xs ih =>
    have hx : (x.id == m.id) = false :=
      beq_eq_false_iff_ne.mpr (h x (List.mem_cons_self x xs))
    simp only [setMessage, hx, Bool.false_eq_true, if_false, List.cons_append, List.cons.injEq,
      true_and]
    exact ih (fun y hy => h y (List.mem_cons_of_mem x hy))

theorem setSaved_find_self (l : List SavedGym) (s : SavedGym) :
    (setSaved l s).find? (fun x => x.userId == s.userId && x.gymId == s.gymId) = some s := by
  induction l with
  | nil => exact List.find?_cons_of_pos _ (by simp)
  | cons x xs ih =>
    by_cases hx : (x.userId == s.userId && x.gymId == s.gymId) = true
    · simp only [setSaved, hx, if_true]
      exact List.find?_cons_of_pos _ (by simp)
    · have hx' : (x.userId == s.userId && x.gymId == s.gymId) = false := by simpa using hx
      simp only [setSaved, hx', Bool.false_eq_true, if_false]
      rw [List.find?_cons_of_neg _ (by simp [hx'])]
      exact ih

theorem setSaved_filter_self_length (l : List SavedGym) (s : SavedGym)
    (hfound : l.find? (fun x => x.userId == s.userId && x.gymId == s.gymId) ≠ none) :
    ((setSaved l s).filter (fun x => x.userId == s.userId && x.gymId == s.gymId)).length =
      (l.filter (fun x => x.userId == s.userId && x.gymId == s.gymId)).length := by
  induction l with
  | nil => exact absurd rfl hfound
  | cons x xs ih =>
    by_cases hx : (x.userId == s.userId && x.gymId == s.gymId) = true
    · simp only [setSaved, hx, if_true, List.filter_cons]
      simp [hx]
    · have hx' : (x.userId == s.userId && x.gymId == s.gymId) = false := by simpa using hx
      have hfound' : xs.find? (fun x => x.userId == s.userId && x.gymId == s.gymId) ≠ none := by
        intro h0
        apply hfound
        rw [List.find?_cons_of_neg _ (by simp [hx'])]
        exact h0
      simp only [setSaved, hx', Bool.false_eq_true, if_false, List.filter_cons, hx']
      simp only [ih hfound']

theorem setSaved_filter_other (l : List SavedGym) (s : SavedGym) (p q : Nat)
    (hne : ¬(s.userId = p ∧ s.gymId = q)) :
    (setSaved l s).filter (fun x => x.userId == p && x.gymId == q) =
      l.filter (fun x => x.userId == p && x.gymId == q) := by
  have hs : (s.userId == p && s.gymId == q) = false := by
    rw [Bool.eq_false_iff]
    simpa [Bool.and_eq_true] using hne
  induction l with
  | nil => simp [setSaved, hs]
  | cons x xs ih =>
    by_cases hx : (x.userId == s.userId && x.gymId == s.gymId) = true
    · have hxkey : x.userId = s.userId ∧ x.gymId = s.gymId := by
        simpa [Bool.and_eq_true] using hx
      have hxp : (x.userId == p && x.gymId == q) = false := by
        rw [hxkey.1, hxkey.2]
        exact hs
      simp only [setSaved, hx, if_true, List.filter_cons, hs, hxp, Bool.false_eq_true,
        if_false]
    · have hx' : (x.userId == s.userId && x.gymId == s.gymId) = false := by simpa using hx
      simp only [setSaved, hx', Bool.false_eq_true, if_false, List.filter_cons]
      rw [ih]

/-! ## Mutual-match handshake (claim C4) -/

/-- C4: for distinct existing users `a` and `b` with no prior `UserMatch`
between them, a match request from `a` to `b` followed by one from `b` to
`a` leaves exactly one `UserMatch` record connecting the unordered pair
`{a, b}`, and that record has status `"accepted"` (the reciprocal request
transitions the existing pending record instead of creating a second one).
`hfresh` is the `MemStorage` counter invariant (every stored id is below
`userMatchIdCounter`), which holds in every reachable state. -/
theorem reciprocal_request_single_accepted
    (st : MemState) (a b now1 now2 : Nat)
    (_hab : a ≠ b)
    (ha : (getUser st a).isSome) (hb : (getUser st b).isSome)
    (hfresh : ∀ m ∈ st.userMatchStore, m.id < st.userMatchIdCounter)
    (hnone : getUserMatchByUsers st a b = none) :
    ∃ m2 st2,
      requestMatch (requestMatch st a { senderId := a, receiverId := b } now1).2 b
          { senderId := b, receiverId := a } now2 = (.ok m2, st2) ∧
      m2.status = "accepted" ∧
      (st2.userMatchStore.filter (fun m => connects m a b)).length = 1 ∧
      (∀ m ∈ st2.userMatchStore, connects m a b → m.status = "accepted") := by
  obtain ⟨ub, hub⟩ := Option.isSome_iff_exists.mp hb
  obtain ⟨ua, hua⟩ := Option.isSome_iff_exists.mp ha
  -- the freshly created pending match of the first request
  set m1 : UserMatch :=
    { id := st.userMatchIdCounter, senderId := a, receiverId := b,
      status := "pending", matchScore := none, createdAt := now1, updatedAt := now1 } with hm1
  have hstore1 : setMatch st.userMatchStore m1 = st.userMatchStore ++ [m1] :=
    setMatch_append _ _ (fun x hx => Nat.ne_of_lt (hfresh x hx))
  have hr1 : requestMatch st a { senderId := a, receiverId := b } now1 =
      (.ok m1, { st with userMatchStore := st.userMatchStore ++ [m1],
                         userMatchIdCounter := st.userMatchIdCounter + 1 }) := by
    simp only [requestMatch, createUserMatch, hub, hnone, statusOrPending, bne_self_eq_false,
      Bool.false_eq_true, if_false, hstore1]
  set st1 : MemState :=
    { st with userMatchStore := st.userMatchStore ++ [m1],
              userMatchIdCounter := st.userMatchIdCounter + 1 } with hst1
  have hnoneBA : st.userMatchStore.find? (fun m => connects m b a) = none := by
    have h0 : getUserMatchByUsers st b a = none := by
      rw [← getUserMatchByUsers_symm st a b]
      exact hnone
    exact h0
  have hfind1 : getUserMatchByUsers st1 b a = some m1 := by
    show (st.userMatchStore ++ [m1]).find? (fun m => connects m b a) = some m1
    rw [findAppendNone _ _ _ hnoneBA]
    have hc : connects m1 b a = true := by simp [connects, hm1]
    exact List.find?_cons_of_pos _ hc
  have hidnone : st.userMatchStore.find? (fun m => m.id == m1.id) = none := by
    refine List.find?_eq_none.mpr (fun x hx => ?_)
    simp only [beq_eq_false_iff_ne, ne_eq]
    exact fun hcl => absurd hcl (by simpa using Nat.ne_of_lt (hfresh x hx))
  have hgetid : getUserMatch st1 m1.id = some m1 := by
    show (st.userMatchStore ++ [m1]).find? (fun m => m.id == m1.id) = some m1
    rw [findAppendNone _ _ _ hidnone]
    exact List.find?_cons_of_pos _ (by simp)
  set m2 : UserMatch := { m1 with status := "accepted", updatedAt := now2 } with hm2
  have hstore2 : setMatch (st.userMatchStore ++ [m1]) m2 = st.userMatchStore ++ [m2] :=
    setMatch_update _ _ _ rfl (fun x hx => Nat.ne_of_lt (hfresh x hx))
  have hupd : updateUserMatchStatus st1 m1.id "accepted" now2 =
      some (m2, { st1 with userMatchStore := st.userMatchStore ++ [m2] }) := by
    simp only [updateUserMatchStatus, hgetid]
    show some (m2, { st1 with userMatchStore := setMatch (st.userMatchStore ++ [m1]) m2 }) = _
    rw [hstore2]
  have hua1 : getUser st1 a = some ua := hua
  have hr2 : requestMatch st1 b { senderId := b, receiverId := a } now2 =
      (.ok m2, { st1 with userMatchStore := st.userMatchStore ++ [m2] }) := by
    simp only [requestMatch, createUserMatch, hua1, hfind1, hupd, bne_self_eq_false,
      Bool.false_eq_true, if_false, hm1, beq_self_eq_true, Bool.and_self, if_true]
  refine ⟨m2, { st1 with userMatchStore := st.userMatchStore ++ [m2] }, ?_, rfl, ?_, ?_⟩
  · rw [hr1]
    exact hr2
  · show ((st.userMatchStore ++ [m2]).filter (fun m => connects m a b)).length = 1
    rw [List.filter_append]
    have hf0 : st.userMatchStore.filter (fun m => connects m a b) = [] := by
      refine List.filter_eq_nil_iff.mpr (fun x hx => ?_)
      exact List.find?_eq_none.mp hnone x hx
    rw [hf0]
    have hc2 : connects m2 a b = true := by simp [connects, hm2, hm1]
    simp [hc2]
  · show ∀ m ∈ st.userMatchStore ++ [m2], connects m a b → m.status = "accepted"
    intro m hm hcm
    rcases List.mem_append.mp hm with h | h
    · exact absurd (by simpa using hcm) (List.find?_eq_none.mp hnone m h)
    · rcases List.mem_singleton.mp h with rfl
      rfl

theorem reciprocal_request_single_accepted_witness :
    (1 : Nat) ≠ 2 ∧
    (getUser twoUserState 1).isSome = true ∧ (getUser twoUserState 2).isSome = true ∧
    (∀ m ∈ twoUserState.userMatchStore, m.id < twoUserState.userMatchIdCounter) ∧
    getUserMatchByUsers twoUserState 1 2 = none ∧
    (∃ m2 st2,
      requestMatch (requestMatch twoUserState 1 { senderId := 1, receiverId := 2 } 0).2 2
          { senderId := 2, receiverId := 1 } 1 = (.ok m2, st2) ∧
      m2.status = "accepted" ∧
      (st2.userMatchStore.filter (fun m => connects m 1 2)).length = 1 ∧
      (∀ m ∈ st2.userMatchStore, connects m 1 2 → m.status = "accepted")) :=
  ⟨by decide, by decide, by decide, by decide, by decide,
   reciprocal_request_single_accepted twoUserState 1 2 0 1 (by decide) (by decide) (by decide)
     (by decide) (by decide)⟩

/-! ## Message authorization (claim C5) -/

/-- C5: when no accepted `UserMatch` exists between sender `s` and receiver
`r` (in either direction), `sendMessage` fails with the 403 authorization
error and the whole state — in particular the message store — is unchanged:
no `Message` record is created. -/
theorem sendMessage_unmatched_rejected (st : MemState) (s r : Nat) (c : String) (now : Nat)
    (hr : (getUser st r).isSome)
    (hnoacc : ∀ m ∈ st.userMatchStore, connects m s r → m.status ≠ "accepted") :
    sendMessage st s { senderId := s, receiverId := r, content := c } now =
      (.error (.forbidden "You can only message users you've matched with"), st) := by
  obtain ⟨ur, hur⟩ := Option.isSome_iff_exists.mp hr
  simp only [sendMessage, bne_self_eq_false, Bool.false_eq_true, if_false, hur]
  cases hf : getUserMatchByUsers st s r with
  | none => rfl
  | some m =>
    have hf' : st.userMatchStore.find? (fun x => connects x s r) = some m := hf
    have hmem : m ∈ st.userMatchStore := List.mem_of_find?_eq_some hf'
    have hcm : connects m s r = true := by simpa using List.find?_some hf'
    have hst : (m.status != "accepted") = true := by
      simpa [bne] using hnoacc m hmem hcm
    simp only [hst, if_true]

theorem sendMessage_unmatched_rejected_witness :
    (getUser pendingMatchState 2).isSome = true ∧
    (∀ m ∈ pendingMatchState.userMatchStore, connects m 1 2 → m.status ≠ "accepted") ∧
    sendMessage pendingMatchState 1 { senderId := 1, receiverId := 2, content := "hi" } 5 =
      (.error (.forbidden "You can only message users you've matched with"), pendingMatchState) :=
  ⟨by decide, by decide,
   sendMessage_unmatched_rejected pendingMatchState 1 2 "hi" 5 (by decide) (by decide)⟩

/-! ## Match-response authorization (claim C6) -/

/-- C6: responding to an existing match (`accepted` or `rejected`) as an
actor who is not the match's receiver fails with the 403 authorization
error and leaves the state — hence the match's status and every other
field — unchanged. -/
theorem respondToMatch_nonreceiver_rejected (st : MemState) (actor matchId : Nat)
    (status : String) (now : Nat) (m : UserMatch)
    (hm : getUserMatch st matchId = some m) (hrecv : m.receiverId ≠ actor)
    (hstatus : status = "accepted" ∨ status = "rejected") :
    respondToMatch st actor matchId status now =
      (.error (.forbidden "You can only respond to matches sent to you"), st) := by
  have hs : (status == "accepted" || status == "rejected") = true := by
    rcases hstatus with rfl | rfl <;> simp
  have hner : (m.receiverId != actor) = true := by simpa [bne] using hrecv
  simp only [respondToMatch, hs, Bool.not_true, Bool.false_eq_true, if_false, hm, hner, if_true]

theorem respondToMatch_nonreceiver_rejected_witness :
    getUserMatch pendingMatchState 1 = some pendingMatchRec ∧
    pendingMatchRec.receiverId ≠ 3 ∧
    respondToMatch pendingMatchState 3 1 "accepted" 7 =
      (.error (.forbidden "You can only respond to matches sent to you"), pendingMatchState) :=
  ⟨by decide, by decide,
   respondToMatch_nonreceiver_rejected pendingMatchState 3 1 "accepted" 7 pendingMatchRec
     (by decide) (by decide) (Or.inl rfl)⟩

/-! ## Unread-message flow (claim C7) -/

/-- C7: with an accepted match between `a` and `b` and no unread messages
for `b`, sending "hi" from `a` to `b` persists a message with
`read = false` and brings `b`'s unread count to 1; `b` then fetching the
conversation with `a` bulk-marks the unread messages from `a` as read,
bringing `b`'s unread count back to 0.  `hfresh` is the `MemStorage`
message-counter invariant, which holds in every reachable state. -/
theorem send_then_fetch_clears_unread (st : MemState) (a b : Nat) (m : UserMatch) (now : Nat)
    (ha : (getUser st a).isSome) (hb : (getUser st b).isSome)
    (hmatch : getUserMatchByUsers st a b = some m) (hacc : m.status = "accepted")
    (hfresh : ∀ x ∈ st.messageStore, x.id < st.messageIdCounter)
    (hunread : getUnreadMessageCount st b = 0) :
    ∃ msg st1,
      sendMessage st a { senderId := a, receiverId := b, content := "hi" } now = (.ok msg, st1) ∧
      msg.read = false ∧
      getUnreadMessageCount st1 b = 1 ∧
      getUnreadMessageCount (getConversation st1 b a).2 b = 0 := by
  obtain ⟨ub, hub⟩ := Option.isSome_iff_exists.mp hb
  obtain ⟨ua, hua⟩ := Option.isSome_iff_exists.mp ha
  set msg : Message :=
    { id := st.messageIdCounter, senderId := a, receiverId := b, content := "hi",
      read := false, createdAt := now } with hmsg
  have hstore : setMessage st.messageStore msg = st.messageStore ++ [msg] :=
    setMessage_append _ _ (fun x hx => Nat.ne_of_lt (hfresh x hx))
  set st1 : MemState :=
    { st with messageStore := st.messageStore ++ [msg],
              messageIdCounter := st.messageIdCounter + 1 } with hst1
  have hacc' : (m.status != "accepted") = false := by simp [bne, hacc]
  have hsnd : sendMessage st a { senderId := a, receiverId := b, content := "hi" } now =
      (.ok msg, st1) := by
    simp only [sendMessage, bne_self_eq_false, Bool.false_eq_true, if_false, hub, hmatch,
      hacc', createMessage, hstore]
  have h0 : st.messageStore.filter (fun x => x.receiverId == b && !x.read) = [] :=
    List.length_eq_zero.mp hunread
  have hcnt1 : getUnreadMessageCount st1 b = 1 := by
    show ((st.messageStore ++ [msg]).filter (fun x => x.receiverId == b && !x.read)).length = 1
    rw [List.filter_append, h0]
    simp
  have hmatch1 : getUserMatchByUsers st1 b a = some m := by
    show getUserMatchByUsers st b a = some m
    rw [← getUserMatchByUsers_symm st a b]
    exact hmatch
  have hua1 : getUser st1 a = some ua := hua
  have hconv : (getConversation st1 b a).2 = markMessagesAsRead st1 b a := by
    simp only [getConversation, hua1, hmatch1, hacc', Bool.false_eq_true, if_false]
  refine ⟨msg, st1, hsnd, rfl, hcnt1, ?_⟩
  rw [hconv]
  show (((st.messageStore ++ [msg]).map
      (fun x => if x.senderId == a && x.receiverId == b && !x.read then
        { x with read := true } else x)).filter
      (fun x => x.receiverId == b && !x.read)).length = 0
  rw [List.length_eq_zero]
  refine List.filter_eq_nil_iff.mpr (fun x hx => ?_)
  obtain ⟨y, hy, rfl⟩ := List.mem_map.mp hx
  rcases List.mem_append.mp hy with hyl | hyr
  · have hpy : ¬ (y.receiverId == b && !y.read) = true := List.filter_eq_nil_iff.mp h0 y hyl
    by_cases hcond : (y.senderId == a && y.receiverId == b && !y.read) = true
    · simp only [hcond, if_true]
      simp
    · simp only [hcond, if_false]
      exact hpy
  · rcases List.mem_singleton.mp hyr with rfl
    simp

theorem send_then_fetch_clears_unread_witness :
    getUserMatchByUsers acceptedMatchState 1 2 = some acceptedMatchRec ∧
    acceptedMatchRec.status = "accepted" ∧
    getUnreadMessageCount acceptedMatchState 2 = 0 ∧
    (∃ msg st1,
      sendMessage acceptedMatchState 1 { senderId := 1, receiverId := 2, content := "hi" } 5 =
        (.ok msg, st1) ∧
      msg.read = false ∧
      getUnreadMessageCount st1 2 = 1 ∧
      getUnreadMessageCount (getConversation st1 2 1).2 2 = 0) :=
  ⟨by decide, rfl, by decide,
   send_then_fetch_clears_unread acceptedMatchState 1 2 acceptedMatchRec 5 (by decide)
     (by decide) (by decide) rfl (by decide) (by decide)⟩

/-! ## Saved-gym idempotence (claim C9) -/

/-- C9 (counterexample): re-saving with supplied match score 0 does *not*
update the stored score: with a record for `(1, 1)` carrying score 80, a
second save supplying score 0 leaves 80 in place, refuting "a second save
with a supplied match score updates the existing record's matchScore to
the supplied score". -/
theorem saveGym_zero_score_not_updated :
    Option.map SavedGym.matchScore
      (getSavedGym (saveGym savedGymOnceState
        { userId := 1, gymId := 1, matchScore := some 0 } 1).2 1 1) = some (some 80) ∧
    Option.map SavedGym.matchScore
      (getSavedGym (saveGym savedGymOnceState
        { userId := 1, gymId := 1, matchScore := some 0 } 1).2 1 1) ≠ some (some 0) := by
  constructor <;> decide

/-- C9 (amended): re-saving an already-saved gym with a *truthy* (non-null,
non-zero) supplied score updates the existing record's `matchScore` in
place: the returned and stored record is the existing one with the new
score, the number of records for the `(userId, gymId)` pair is unchanged,
and the at-most-one-record-per-pair invariant is preserved for every pair.
(A supplied score of 0 is falsy in `if (savedGymData.matchScore)` and does
not update — see the counterexample.) -/
theorem saveGym_resave_updates (st : MemState) (u g : Nat) (sc : Int) (now : Nat)
    (ex : SavedGym)
    (hex : getSavedGym st u g = some ex) (hsc : sc ≠ 0) :
    (saveGym st { userId := u, gymId := g, matchScore := some sc } now).1 =
        { ex with matchScore := some sc } ∧
    getSavedGym (saveGym st { userId := u, gymId := g, matchScore := some sc } now).2 u g =
        some { ex with matchScore := some sc } ∧
    ((saveGym st { userId := u, gymId := g, matchScore := some sc } now).2.savedGymStore.filter
        (fun x => x.userId == u && x.gymId == g)).length =
      (st.savedGymStore.filter (fun x => x.userId == u && x.gymId == g)).length ∧
    (∀ p q : Nat,
      (st.savedGymStore.filter (fun x => x.userId == p && x.gymId == q)).length ≤ 1 →
      ((saveGym st { userId := u, gymId := g, matchScore := some sc } now).2.savedGymStore.filter
          (fun x => x.userId == p && x.gymId == q)).length ≤ 1) := by
  have hf' : st.savedGymStore.find? (fun x => x.userId == u && x.gymId == g) = some ex := hex
  have hkey : ex.userId = u ∧ ex.gymId = g := by
    simpa [Bool.and_eq_true] using List.find?_some hf'
  obtain ⟨hku, hkg⟩ := hkey
  subst hku hkg
  have htr : intTruthy (some sc) = true := by simp [intTruthy, hsc]
  have hsg : saveGym st { userId := ex.userId, gymId := ex.gymId, matchScore := some sc } now =
      ({ ex with matchScore := some sc },
       { st with savedGymStore := setSaved st.savedGymStore { ex with matchScore := some sc } }) := by
    simp only [saveGym, hex, htr, if_true]
  rw [hsg]
  refine ⟨rfl, ?_, ?_, ?_⟩
  · exact setSaved_find_self st.savedGymStore { ex with matchScore := some sc }
  · exact setSaved_filter_self_length st.savedGymStore { ex with matchScore := some sc }
      (by rw [hf']; exact fun h0 => Option.noConfusion h0)
  · intro p q hle
    by_cases hpq : ex.userId = p ∧ ex.gymId = q
    · obtain ⟨hp, hq⟩ := hpq
      subst hp hq
      rw [setSaved_filter_self_length st.savedGymStore { ex with matchScore := some sc }
        (by rw [hf']; exact fun h0 => Option.noConfusion h0)]
      exact hle
    · rw [setSaved_filter_other st.savedGymStore { ex with matchScore := some sc } p q hpq]
      exact hle

theorem saveGym_resave_updates_witness :
    getSavedGym savedGymOnceState 1 1 = some savedRec ∧ (90 : Int) ≠ 0 ∧
    ((saveGym savedGymOnceState { userId := 1, gymId := 1, matchScore := some 90 } 3).1 =
        { savedRec with matchScore := some 90 } ∧
    getSavedGym (saveGym savedGymOnceState { userId := 1, gymId := 1, matchScore := some 90 } 3).2
        1 1 = some { savedRec with matchScore := some 90 } ∧
    ((saveGym savedGymOnceState
        { userId := 1, gymId := 1, matchScore := some 90 } 3).2.savedGymStore.filter
        (fun x => x.userId == 1 && x.gymId == 1)).length =
      (savedGymOnceState.savedGymStore.filter (fun x => x.userId == 1 && x.gymId == 1)).length ∧
    (∀ p q : Nat,
      (savedGymOnceState.savedGymStore.filter (fun x => x.userId == p && x.gymId == q)).length ≤ 1 →
      ((saveGym savedGymOnceState
          { userId := 1, gymId := 1, matchScore := some 90 } 3).2.savedGymStore.filter
          (fun x => x.userId == p && x.gymId == q)).length ≤ 1)) :=
  ⟨by decide, by decide,
   saveGym_resave_updates savedGymOnceState 1 1 90 3 savedRec (by decide) (by decide)⟩

end GymMatchMate
